import Mathlib

/-!
Verification of the resumable AI-response streaming pipeline of the t3chat
repository.  Each definition is a shallow embedding of one source function:
the Convex mutations in convex/streamingTasks.ts, the resume route in
app/api/chat/[threadId]/resume/route.ts, the message/thread mutations in
convex/messages.ts and the threads updateStatus mutation, the chat POST
handler, and the rate limiting service in lib/rate-limiting.
Timestamps (Date.now) are passed explicitly as natural numbers; database
records touched by a handler are passed in and the updated records are
returned; a thrown exception is an Except error.
-/

namespace T3

/-! ## streamingTasks: data model (convex/streamingTasks.ts, convex/schema.ts) -/

inductive TaskStatus
  | initializing
  | streaming
  | completed
  | failed
  | disconnected
deriving DecidableEq, Repr

structure TaskError where
  message : String
  code : String
  retryable : Bool
deriving DecidableEq, Repr

/-- One streamingTasks document.  temperature (a float64 in the schema) is
modelled as a rational; no claim depends on float rounding. -/
structure StreamingTask where
  taskId : String
  threadId : String
  userId : String
  status : TaskStatus
  model : String
  systemPrompt : Option String := none
  temperature : Option Rat := none
  maxTokens : Option Nat := none
  accumulatedTokens : List String
  currentTokenIndex : Nat
  startedAt : Nat
  lastTokenAt : Option Nat := none
  lastClientSeenAt : Option Nat := none
  completedAt : Option Nat := none
  error : Option TaskError := none
  isContinued : Bool := false
deriving DecidableEq, Repr

structure UserRec where
  authUserId : String
deriving DecidableEq, Repr

inductive GenStatus
  | idle
  | generating
  | completed
  | failed
  | cancelled
deriving DecidableEq, Repr

/-- One threads document (the fields this core reads or writes). -/
structure ThreadRec where
  threadId : String
  userId : String
  generationStatus : GenStatus
  activeTaskId : Option String := none
  totalTokensUsed : Nat
  messageCount : Nat
  lastMessageAt : Nat
  updatedAt : Nat
deriving DecidableEq, Repr

structure CreateTaskArgs where
  taskId : String
  threadId : String
  model : String
  systemPrompt : Option String := none
  temperature : Option Rat := none
  maxTokens : Option Nat := none
deriving DecidableEq, Repr

namespace streamingTasks

/-- streamingTasks.create: after the auth, user and thread-ownership checks,
inserts a fresh document with status initializing, an empty token buffer and
currentTokenIndex 0. -/
def create (identity : Option String) (user : Option UserRec)
    (thread : Option ThreadRec) (args : CreateTaskArgs) (now : Nat) :
    Except String StreamingTask :=
  match identity with
  | none => .error "Unauthorized"
  | some _ =>
    match user with
    | none => .error "User not found"
    | some u =>
      match thread with
      | none => .error "Thread not found or unauthorized"
      | some th =>
        if th.userId ≠ u.authUserId then
          .error "Thread not found or unauthorized"
        else
          .ok
            { taskId := args.taskId
              threadId := args.threadId
              userId := u.authUserId
              status := .initializing
              model := args.model
              systemPrompt := args.systemPrompt
              temperature := args.temperature
              maxTokens := args.maxTokens
              accumulatedTokens := []
              currentTokenIndex := 0
              startedAt := now
              isContinued := false }

/-- streamingTasks.updateStatus applied to the looked-up task: patches status
and lastClientSeenAt, sets completedAt when the new status is completed, and
overwrites error only when an error argument is supplied. -/
def updateStatus (task : StreamingTask) (status : TaskStatus)
    (error : Option TaskError) (now : Nat) : StreamingTask :=
  { task with
    status := status
    lastClientSeenAt := some now
    completedAt := if status = .completed then some now else task.completedAt
    error :=
      match error with
      | some e => some e
      | none => task.error }

/-- streamingTasks.appendToken applied to the looked-up task: appends the
token and sets currentTokenIndex to the new length.  The handler performs no
status check. -/
def appendToken (task : StreamingTask) (token : String) (now : Nat) :
    StreamingTask :=
  let updatedTokens := task.accumulatedTokens ++ [token]
  { task with
    accumulatedTokens := updatedTokens
    currentTokenIndex := updatedTokens.length
    lastTokenAt := some now
    lastClientSeenAt := some now }

end streamingTasks

/-- The cursor invariant of the spec: currentTokenIndex equals the number of
accumulated fragments. -/
def cursorInvariant (t : StreamingTask) : Prop :=
  t.currentTokenIndex = t.accumulatedTokens.length

instance (t : StreamingTask) : Decidable (cursorInvariant t) := by
  unfold cursorInvariant; infer_instance

/-- The mutations a task can undergo after creation. -/
inductive TaskOp
  | append (token : String) (now : Nat)
  | setStatus (status : TaskStatus) (error : Option TaskError) (now : Nat)
deriving DecidableEq, Repr

def applyTaskOp (t : StreamingTask) : TaskOp → StreamingTask
  | .append tok now => streamingTasks.appendToken t tok now
  | .setStatus s e now => streamingTasks.updateStatus t s e now

def applyTaskOps (t : StreamingTask) (ops : List TaskOp) : StreamingTask :=
  ops.foldl applyTaskOp t

/-! ## Resume route (app/api/chat/[threadId]/resume/route.ts) -/

/-- One server-sent event enqueued by the route, decoded from its
data: json framing. -/
inductive SSEEvent
  | textDelta (textDelta : String)
  | finish (finishReason : String)
deriving DecidableEq, Repr

/-- The possible responses of the resume GET handler. -/
inductive ResumeResponse
  | unauthorized
  | taskIdRequired
  | taskNotFound
  | forbidden
  | alreadyCompleted (accumulatedTokens : List String)
  | streamFailed
  | eventStream (events : List SSEEvent)
deriving DecidableEq, Repr

def ResumeResponse.statusCode : ResumeResponse → Nat
  | .unauthorized => 401
  | .taskIdRequired => 400
  | .taskNotFound => 404
  | .forbidden => 403
  | .alreadyCompleted _ => 200
  | .streamFailed => 400
  | .eventStream _ => 200

def ResumeResponse.isEventStream : ResumeResponse → Bool
  | .eventStream _ => true
  | _ => false

/-- The sendTokens loop of the resume route, observed for fuel polling
iterations.  task is the snapshot captured by the closure when the stream was
created and tokenIndex is the let-bound start index; neither is ever updated
by the loop, which re-slices the same snapshot every 100ms.  When the
snapshot status is completed the loop also enqueues a finish event and
closes; otherwise it reschedules itself. -/
def sendTokens (task : StreamingTask) (tokenIndex : Nat) : Nat → List SSEEvent
  | 0 => []
  | fuel + 1 =>
    let burst := (task.accumulatedTokens.drop tokenIndex).map SSEEvent.textDelta
    if task.status = .completed then burst ++ [SSEEvent.finish "stop"]
    else burst ++ sendTokens task tokenIndex fuel

structure SessionUser where
  id : String
deriving DecidableEq, Repr

/-- The resume GET handler.  Inputs: the session, the taskId query parameter,
and the streamingTasks document found for that taskId (none when the lookup
misses).  Output: the response together with the streamingTasks document as
it stands after the handler ran (the handler issues an updateStatus mutation
on the non-terminal path before creating the stream; the stream closure keeps
the earlier snapshot). -/
def resumeGET (session : Option SessionUser) (taskIdParam : Option String)
    (task? : Option StreamingTask) (fuel : Nat) (now : Nat) :
    ResumeResponse × Option StreamingTask :=
  match session with
  | none => (.unauthorized, task?)
  | some user =>
    match taskIdParam with
    | none => (.taskIdRequired, task?)
    | some _ =>
      match task? with
      | none => (.taskNotFound, none)
      | some task =>
        if task.userId ≠ user.id then (.forbidden, some task)
        else if task.status = .completed then
          (.alreadyCompleted task.accumulatedTokens, some task)
        else if task.status = .failed then (.streamFailed, some task)
        else
          (.eventStream (sendTokens task task.currentTokenIndex fuel),
            some (streamingTasks.updateStatus task .streaming none now))

/-! ## Rate limiting (lib/rate-limiting/types.ts, credits.ts, service.ts) -/

inductive UserTier
  | Anonymous
  | Free
  | Pro
  | Enterprise
deriving DecidableEq, Repr

inductive RateLimitAction
  | message
  | search
  | research
  | file_upload
deriving DecidableEq, Repr

structure UserLimits where
  CREDITS : Int
  SEARCH : Int
  RESEARCH : Int
  FILE_UPLOADS : Int
deriving DecidableEq, Repr

def TIER_LIMITS : UserTier → UserLimits
  | .Anonymous => { CREDITS := 10, SEARCH := 5, RESEARCH := 0, FILE_UPLOADS := 3 }
  | .Free => { CREDITS := 20, SEARCH := 5, RESEARCH := 0, FILE_UPLOADS := 5 }
  | .Pro => { CREDITS := 200, SEARCH := 50, RESEARCH := 5, FILE_UPLOADS := 50 }
  | .Enterprise => { CREDITS := 1000, SEARCH := 200, RESEARCH := 20, FILE_UPLOADS := 200 }

structure RateLimitUsage where
  creditsUsed : Int
  searchCallsUsed : Int
  researchCallsUsed : Int
  fileUploadsUsed : Int
  currentTier : UserTier
  periodStart : Nat
  resetsAt : Nat
deriving DecidableEq, Repr

structure TierInfo where
  current : UserTier
  recommended : Option UserTier := none
deriving DecidableEq, Repr

structure RateLimitResult where
  allowed : Bool
  reason : Option String := none
  creditsRequired : Option Int := none
  remainingCredits : Option Int := none
  remainingCalls : Option Int := none
  remainingUploads : Option Int := none
  resetsAt : Option Nat := none
  upgradeRequired : Option Bool := none
  tierInfo : Option TierInfo := none
deriving DecidableEq, Repr

structure RateLimitMetadata where
  model : Option String := none
  estimatedTokens : Option Rat := none
  tools : Option (List String) := none
  fileSize : Option Int := none
deriving DecidableEq, Repr

structure ModelCreditCost where
  baseCredits : Int
  tokensPerCredit : Int
  toolMultiplier : Rat
deriving DecidableEq, Repr

/-- MODEL_CREDIT_COSTS from credits.ts; the decimal multipliers are exact
rationals. -/
def MODEL_CREDIT_COSTS (model : String) : Option ModelCreditCost :=
  if model = "gpt-4o-mini" then some { baseCredits := 1, tokensPerCredit := 10000, toolMultiplier := 3/2 }
  else if model = "gpt-4o" then some { baseCredits := 3, tokensPerCredit := 3000, toolMultiplier := 2 }
  else if model = "gpt-4-turbo" then some { baseCredits := 2, tokensPerCredit := 5000, toolMultiplier := 9/5 }
  else if model = "claude-4-sonnet" then some { baseCredits := 4, tokensPerCredit := 2500, toolMultiplier := 2 }
  else if model = "claude-3.5-sonnet" then some { baseCredits := 3, tokensPerCredit := 3000, toolMultiplier := 9/5 }
  else if model = "claude-3-haiku" then some { baseCredits := 1, tokensPerCredit := 12000, toolMultiplier := 7/5 }
  else if model = "gemini-2.5-pro" then some { baseCredits := 3, tokensPerCredit := 3500, toolMultiplier := 9/5 }
  else if model = "gemini-2.5-flash" then some { baseCredits := 2, tokensPerCredit := 5000, toolMultiplier := 3/2 }
  else if model = "gemini-2.0-flash" then some { baseCredits := 2, tokensPerCredit := 4500, toolMultiplier := 3/2 }
  else if model = "deepseek-v3.1" then some { baseCredits := 2, tokensPerCredit := 5000, toolMultiplier := 3/2 }
  else if model = "deepseek-coder" then some { baseCredits := 1, tokensPerCredit := 8000, toolMultiplier := 7/5 }
  else if model = "mistral-large" then some { baseCredits := 2, tokensPerCredit := 4000, toolMultiplier := 8/5 }
  else if model = "llama-3.1-70b" then some { baseCredits := 2, tokensPerCredit := 6000, toolMultiplier := 3/2 }
  else none

def TOOL_CREDIT_COSTS (tool : String) : Option Int :=
  if tool = "search" then some 1
  else if tool = "research" then some 3
  else if tool = "file_analysis" then some 2
  else if tool = "image_analysis" then some 2
  else none

/-- calculateCreditCost from credits.ts.  Unknown models fall back to the
gpt-4o-mini cost row; unknown tools cost 1 credit; the tool multiplier is
applied through Math.ceil only when tools are used; at least 1 credit is
charged. -/
def calculateCreditCost (model : String) (estimatedTokens : Rat)
    (toolsUsed : List String) : Int :=
  let modelCost := (MODEL_CREDIT_COSTS model).getD
    { baseCredits := 1, tokensPerCredit := 10000, toolMultiplier := 3/2 }
  let totalCredits : Int := modelCost.baseCredits
  let totalCredits : Int :=
    if estimatedTokens > (modelCost.tokensPerCredit : Rat) then
      totalCredits +
        ⌈(estimatedTokens - (modelCost.tokensPerCredit : Rat)) /
          (modelCost.tokensPerCredit : Rat)⌉
    else totalCredits
  let toolCredits : Int :=
    toolsUsed.foldl (fun acc tool => acc + (TOOL_CREDIT_COSTS tool).getD 1) 0
  let totalCredits : Int :=
    if toolsUsed.length > 0 then
      ⌈(totalCredits : Rat) * modelCost.toolMultiplier⌉ + toolCredits
    else totalCredits
  max 1 totalCredits

def getRecommendedTier : UserTier → Option UserTier
  | .Anonymous => some .Free
  | .Free => some .Pro
  | .Pro => some .Enterprise
  | .Enterprise => none

/-- validateMessageAction.  The JS truthiness tests are kept: a missing or
empty model string means 1 required credit, a missing or zero estimatedTokens
defaults to 1000, missing tools default to the empty list. -/
def validateMessageAction (usage : RateLimitUsage) (limits : UserLimits)
    (metadata : Option RateLimitMetadata) : RateLimitResult :=
  let requiredCredits : Int :=
    match metadata with
    | none => 1
    | some md =>
      match md.model with
      | none => 1
      | some model =>
        if model = "" then 1
        else
          calculateCreditCost model
            (match md.estimatedTokens with
             | some t => if t = 0 then 1000 else t
             | none => 1000)
            (md.tools.getD [])
  let remainingCredits : Int := max 0 (limits.CREDITS - usage.creditsUsed)
  if usage.creditsUsed + requiredCredits > limits.CREDITS then
    { allowed := false
      reason := some "Credit limit exceeded"
      remainingCredits := some remainingCredits
      resetsAt := some usage.resetsAt
      upgradeRequired := some (limits.CREDITS < (TIER_LIMITS .Pro).CREDITS)
      tierInfo := some { current := usage.currentTier,
                         recommended := getRecommendedTier usage.currentTier } }
  else
    { allowed := true
      creditsRequired := some requiredCredits
      remainingCredits := some (remainingCredits - requiredCredits)
      tierInfo := some { current := usage.currentTier } }

def validateSearchAction (usage : RateLimitUsage) (limits : UserLimits) :
    RateLimitResult :=
  let remainingCalls : Int := max 0 (limits.SEARCH - usage.searchCallsUsed)
  if usage.searchCallsUsed ≥ limits.SEARCH then
    { allowed := false
      reason := some "Search limit exceeded"
      remainingCalls := some 0
      resetsAt := some usage.resetsAt
      upgradeRequired := some (limits.SEARCH < (TIER_LIMITS .Pro).SEARCH)
      tierInfo := some { current := usage.currentTier,
                         recommended := getRecommendedTier usage.currentTier } }
  else
    { allowed := true
      remainingCalls := some (remainingCalls - 1)
      tierInfo := some { current := usage.currentTier } }

def validateResearchAction (usage : RateLimitUsage) (limits : UserLimits) :
    RateLimitResult :=
  if limits.RESEARCH = 0 then
    { allowed := false
      reason := some "Research requires Pro subscription"
      upgradeRequired := some true
      tierInfo := some { current := usage.currentTier, recommended := some .Pro } }
  else
    let remainingCalls : Int := max 0 (limits.RESEARCH - usage.researchCallsUsed)
    if usage.researchCallsUsed ≥ limits.RESEARCH then
      { allowed := false
        reason := some "Research limit exceeded"
        remainingCalls := some 0
        resetsAt := some usage.resetsAt
        upgradeRequired := some false
        tierInfo := some { current := usage.currentTier } }
    else
      { allowed := true
        remainingCalls := some (remainingCalls - 1)
        tierInfo := some { current := usage.currentTier } }

def validateFileUploadAction (usage : RateLimitUsage) (limits : UserLimits)
    (metadata : Option RateLimitMetadata) : RateLimitResult :=
  let remainingUploads : Int := max 0 (limits.FILE_UPLOADS - usage.fileUploadsUsed)
  let proTier : Bool := usage.currentTier = .Pro ∨ usage.currentTier = .Enterprise
  let maxFileSize : Int := if proTier then 50 * 1024 * 1024 else 10 * 1024 * 1024
  let tooLarge : Bool :=
    match metadata with
    | some md =>
      match md.fileSize with
      | some sz => sz ≠ 0 ∧ sz > maxFileSize
      | none => false
    | none => false
  if tooLarge then
    { allowed := false
      reason := some "File too large"
      upgradeRequired := some (¬ proTier)
      tierInfo := some { current := usage.currentTier, recommended := some .Pro } }
  else if usage.fileUploadsUsed ≥ limits.FILE_UPLOADS then
    { allowed := false
      reason := some "File upload limit exceeded"
      remainingUploads := some 0
      resetsAt := some usage.resetsAt
      upgradeRequired := some (limits.FILE_UPLOADS < (TIER_LIMITS .Pro).FILE_UPLOADS)
      tierInfo := some { current := usage.currentTier,
                         recommended := getRecommendedTier usage.currentTier } }
  else
    { allowed := true
      remainingUploads := some (remainingUploads - 1)
      tierInfo := some { current := usage.currentTier } }

def validateAction (action : RateLimitAction) (usage : RateLimitUsage)
    (limits : UserLimits) (metadata : Option RateLimitMetadata) :
    RateLimitResult :=
  match action with
  | .message => validateMessageAction usage limits metadata
  | .search => validateSearchAction usage limits
  | .research => validateResearchAction usage limits
  | .file_upload => validateFileUploadAction usage limits metadata

/-- A thrown JS exception, split by whether it is an instance of
RateLimitError. -/
inductive JsError
  | rateLimit (message : String) (code : String)
  | other (message : String)
deriving DecidableEq, Repr

def JsError.isRateLimitError : JsError → Bool
  | .rateLimit _ _ => true
  | .other _ => false

/-- The outcomes of the database-backed collaborators consulted inside
checkRateLimit, in the order the try block awaits them. -/
structure CheckEnv where
  getUserTier : Except JsError UserTier
  getCurrentUsage1 : Except JsError (Option RateLimitUsage)
  initializeUserRateLimits : Except JsError Unit
  getCurrentUsage2 : Except JsError (Option RateLimitUsage)
  resetRateLimits : Except JsError Unit
  getCurrentUsage3 : Except JsError (Option RateLimitUsage)
  now : Nat

/-- The try block of RateLimitService.checkRateLimit: resolve the tier and
limits, fetch (initializing if absent) the usage row, reset an expired
period, then validate the action.  A missing usage row after initialization
raises a RateLimitError INIT_FAILED; a missing row after a reset hits the
non-null assertion and surfaces as an ordinary TypeError. -/
def checkRateLimitBody (env : CheckEnv) (action : RateLimitAction)
    (metadata : Option RateLimitMetadata) : Except JsError RateLimitResult := do
  let tier ← env.getUserTier
  let limits := TIER_LIMITS tier
  let usage0 ← env.getCurrentUsage1
  let usage? ←
    match usage0 with
    | none => do
      let _ ← env.initializeUserRateLimits
      env.getCurrentUsage2
    | some u => pure (some u)
  match usage? with
  | none => .error (.rateLimit "Failed to initialize rate limits" "INIT_FAILED")
  | some usage =>
    if usage.resetsAt ≤ env.now then do
      let _ ← env.resetRateLimits
      let usage2 ← env.getCurrentUsage3
      match usage2 with
      | none => .error (.other "TypeError: cannot read properties of null")
      | some u2 => pure (validateAction action u2 limits metadata)
    else
      pure (validateAction action usage limits metadata)

/-- RateLimitService.checkRateLimit: the try block wrapped in the catch that
rethrows RateLimitError instances and maps every other exception to a
blocked result. -/
def checkRateLimit (env : CheckEnv) (action : RateLimitAction)
    (metadata : Option RateLimitMetadata) : Except JsError RateLimitResult :=
  match checkRateLimitBody env action metadata with
  | .ok r => .ok r
  | .error e =>
    if e.isRateLimitError then .error e
    else .ok { allowed := false, reason := some "Rate limit service unavailable" }

/-- The rateLimits row mutated by RateLimitService.incrementUsage. -/
structure RateLimitsRec where
  creditsUsed : Int
  searchCallsUsed : Int
  researchCallsUsed : Int
  fileUploadsUsed : Int
deriving DecidableEq, Repr

/-- RateLimitService.incrementUsage on its success path: adds amount to the
field selected by getUsageField. -/
def incrementUsage (rl : RateLimitsRec) (action : RateLimitAction)
    (amount : Int) : RateLimitsRec :=
  match action with
  | .message => { rl with creditsUsed := rl.creditsUsed + amount }
  | .search => { rl with searchCallsUsed := rl.searchCallsUsed + amount }
  | .research => { rl with researchCallsUsed := rl.researchCallsUsed + amount }
  | .file_upload => { rl with fileUploadsUsed := rl.fileUploadsUsed + amount }

/-! ## Messages and threads (convex/messages.ts, threads updateStatus mutation) -/

inductive FinishReason
  | stop
  | length
  | content_filter
  | error
deriving DecidableEq, Repr

structure Usage where
  promptTokens : Nat
  completionTokens : Nat
  totalTokens : Nat
deriving DecidableEq, Repr

structure Attachment where
  url : String
  filename : String
  mediaType : String
  size : Option Nat := none
deriving DecidableEq, Repr

inductive MsgRole
  | user
  | assistant
  | system
  | tool
deriving DecidableEq, Repr

/-- One messages document (the fields this core reads or writes). -/
structure MessageRec where
  threadId : String
  userId : String
  role : MsgRole
  content : String
  isStreaming : Bool
  streamingTaskId : Option String := none
  attachments : Option (List Attachment) := none
  model : Option String := none
  streamingContent : Option (List String) := none
  finishReason : Option FinishReason := none
  usage : Option Usage := none
  createdAt : Nat
  updatedAt : Nat
deriving DecidableEq, Repr

structure CreateMessageArgs where
  threadId : String
  userId : String
  role : MsgRole
  content : String
  attachments : Option (List Attachment) := none
  model : Option String := none
  streamingTaskId : Option String := none
deriving DecidableEq, Repr

structure UpdateStreamingArgs where
  userId : String
  content : String
  streamingContent : Option (List String) := none
  isComplete : Bool
  finishReason : Option FinishReason := none
  usage : Option Usage := none
deriving DecidableEq, Repr

namespace messages

/-- messages.create: after the user and thread-ownership checks, inserts the
message (isStreaming is the truthiness of streamingTaskId) and bumps the
thread message count and lastMessageAt. -/
def create (user : Option UserRec) (thread : Option ThreadRec)
    (args : CreateMessageArgs) (now : Nat) :
    Except String (MessageRec × ThreadRec) :=
  match user with
  | none => .error "User not found"
  | some _ =>
    match thread with
    | none => .error "Thread not found or unauthorized"
    | some th =>
      if th.userId ≠ args.userId then .error "Thread not found or unauthorized"
      else
        let msg : MessageRec :=
          { threadId := args.threadId
            userId := args.userId
            role := args.role
            content := args.content
            isStreaming :=
              match args.streamingTaskId with
              | some s => s ≠ ""
              | none => false
            streamingTaskId := args.streamingTaskId
            attachments := args.attachments
            model := args.model
            createdAt := now
            updatedAt := now }
        let th' :=
          { th with
            lastMessageAt := now
            messageCount := th.messageCount + 1
            updatedAt := now }
        .ok (msg, th')

/-- messages.updateStreaming: after the lookup and thread-ownership check,
patches the message with the new content, streamingContent, finishReason and
usage, sets isStreaming to the negation of isComplete, and — when isComplete
and the thread is still generating — marks the thread completed, clears its
activeTaskId and adds the total token usage once. -/
def updateStreaming (message : Option MessageRec) (thread : Option ThreadRec)
    (args : UpdateStreamingArgs) (now : Nat) :
    Except String (MessageRec × ThreadRec) :=
  match message with
  | none => .error "Message not found"
  | some msg =>
    match thread with
    | none => .error "Unauthorized"
    | some th =>
      if th.userId ≠ args.userId then .error "Unauthorized"
      else
        let msg' :=
          { msg with
            content := args.content
            streamingContent := args.streamingContent
            isStreaming := !args.isComplete
            finishReason := args.finishReason
            usage := args.usage
            updatedAt := now }
        let th' :=
          if args.isComplete ∧ th.generationStatus = .generating then
            { th with
              generationStatus := .completed
              activeTaskId := none
              totalTokensUsed :=
                th.totalTokensUsed + ((args.usage.map Usage.totalTokens).getD 0)
              updatedAt := now }
          else th
        .ok (msg', th')

end messages

namespace threads

/-- threads.updateStatus: after the auth, user and ownership checks, patches
generationStatus, activeTaskId (cleared when the argument is omitted) and
updatedAt. -/
def updateStatus (identity : Option String) (user : Option UserRec)
    (thread : Option ThreadRec) (status : GenStatus)
    (activeTaskId : Option String) (now : Nat) : Except String ThreadRec :=
  match identity with
  | none => .error "Unauthorized"
  | some _ =>
    match user with
    | none => .error "User not found"
    | some u =>
      match thread with
      | none => .error "Thread not found or unauthorized"
      | some th =>
        if th.userId ≠ u.authUserId then
          .error "Thread not found or unauthorized"
        else
          .ok
            { th with
              generationStatus := status
              activeTaskId := activeTaskId
              updatedAt := now }

end threads

/-! ## Chat stream POST handler (app/api/chat/[threadId]/route.ts) -/

/-- The records the streaming POST handler and its callbacks can touch.  The
handler of this repository never inserts into streamingTasks, so the tasks
component records that no GenerationTask appears. -/
structure ChatWorld where
  thread? : Option ThreadRec
  messages : List MessageRec
  tasks : List StreamingTask
  rateLimits : RateLimitsRec
deriving DecidableEq, Repr

structure ChatMsg where
  role : MsgRole
  content : String
deriving DecidableEq, Repr

structure ChatRequest where
  messages : List ChatMsg
  model : String
  continueFromTaskId : Option String := none
deriving DecidableEq, Repr

inductive ChatPostResponse
  | unauthorized
  | invalidBody
  | threadNotFound
  | rateLimited (reason : Option String) (upgradeRequired : Option Bool)
  | dataStream (taskId : String)
  | serverError
deriving DecidableEq, Repr

def ChatPostResponse.statusCode : ChatPostResponse → Nat
  | .unauthorized => 401
  | .invalidBody => 400
  | .threadNotFound => 404
  | .rateLimited _ _ => 429
  | .dataStream _ => 200
  | .serverError => 500

/-- The POST handler of the threadId chat stream route, up to the point the
provider stream is returned: session check, body validation, thread lookup,
the rate limit gate, then (only when allowed) the thread status update to
generating and the placeholder assistant message insert.  body is none when
the JSON fails schema validation (the ZodError catch); rl is the result the
rate limit service returned; genId stands for the nanoid fallback taskId. -/
def chatPOST (session : Option SessionUser) (body : Option ChatRequest)
    (user : Option UserRec) (w : ChatWorld) (rl : RateLimitResult)
    (genId : String) (now : Nat) : ChatPostResponse × ChatWorld :=
  match session with
  | none => (.unauthorized, w)
  | some su =>
    match body with
    | none => (.invalidBody, w)
    | some req =>
      match w.thread? with
      | none => (.threadNotFound, w)
      | some _ =>
        if rl.allowed = false then
          (.rateLimited rl.reason rl.upgradeRequired, w)
        else
          let taskId := (req.continueFromTaskId).getD genId
          match threads.updateStatus (some su.id) user w.thread? .generating
              (some taskId) now with
          | .error _ => (.serverError, w)
          | .ok th' =>
            match messages.create user (some th')
                { threadId := th'.threadId
                  userId := su.id
                  role := .assistant
                  content := ""
                  model := some req.model
                  streamingTaskId := some taskId } now with
            | .error _ => (.serverError, { w with thread? := some th' })
            | .ok (msg, th'') =>
              (.dataStream taskId,
                { w with thread? := some th'', messages := w.messages ++ [msg] })

/-- The world as seen by the streamText callbacks of the POST handler: the
placeholder assistant message, its thread, the rateLimits row, and the
streamingTasks documents (which none of the callbacks touches). -/
structure GenWorld where
  message : MessageRec
  thread : ThreadRec
  task? : Option StreamingTask
  rateLimits : RateLimitsRec
deriving DecidableEq, Repr

/-- The onFinish callback of streamText in the POST handler: write the final
text through messages.updateStreaming, set the thread status to completed
through threads.updateStatus, then add the measured credit cost to the
usage ledger through RateLimitService.incrementUsage. -/
def onFinishPath (userId : String) (text : String) (finishReason : FinishReason)
    (usage : Usage) (model : String) (s : GenWorld) (now : Nat) :
    Except String GenWorld :=
  match messages.updateStreaming (some s.message) (some s.thread)
      { userId := userId
        content := text
        isComplete := true
        finishReason := some finishReason
        usage := some usage } now with
  | .error e => .error e
  | .ok (msg', th') =>
    match threads.updateStatus (some userId) (some { authUserId := userId })
        (some th') .completed none now with
    | .error e => .error e
    | .ok th'' =>
      let actualCredits := calculateCreditCost model (usage.totalTokens : Rat)
        ["web_search_preview"]
      .ok { s with
        message := msg'
        thread := th''
        rateLimits := incrementUsage s.rateLimits .message actualCredits }

/-- The onError callback of streamText in the POST handler: it only sets the
thread status to failed; the streaming task and the message are not
touched. -/
def onErrorPath (userId : String) (s : GenWorld) (now : Nat) :
    Except String GenWorld :=
  match threads.updateStatus (some userId) (some { authUserId := userId })
      (some s.thread) .failed none now with
  | .error e => .error e
  | .ok th' => .ok { s with thread := th' }

/-! ## Concrete records used by the theorems below -/

def taskC1 : StreamingTask :=
  { taskId := "task-1", threadId := "th-1", userId := "u1", status := .streaming,
    model := "gpt-4o", accumulatedTokens := ["Hel", "lo"],
    currentTokenIndex := 2, startedAt := 0 }

def taskC2 : StreamingTask :=
  { taskId := "task-2", threadId := "th-2", userId := "u2", status := .completed,
    model := "gpt-4o", accumulatedTokens := ["Hel", "lo"],
    currentTokenIndex := 2, startedAt := 0, completedAt := some 9 }

def taskC4 : StreamingTask :=
  { taskId := "task-4", threadId := "th-4", userId := "u4", status := .completed,
    model := "gpt-4o", accumulatedTokens := ["done"],
    currentTokenIndex := 1, startedAt := 0, completedAt := some 5 }

def threadC5 : ThreadRec :=
  { threadId := "th-5", userId := "u5", generationStatus := .idle,
    totalTokensUsed := 0, messageCount := 0, lastMessageAt := 0, updatedAt := 0 }

def argsC5 : CreateTaskArgs :=
  { taskId := "task-5", threadId := "th-5", model := "gpt-4o" }

/-- The document streamingTasks.create inserts for argsC5 at time 3. -/
def taskC5 : StreamingTask :=
  { taskId := "task-5", threadId := "th-5", userId := "u5",
    status := .initializing, model := "gpt-4o", accumulatedTokens := [],
    currentTokenIndex := 0, startedAt := 3 }

def taskC8 : StreamingTask :=
  { taskId := "task-8", threadId := "th-8", userId := "u8",
    status := .disconnected, model := "gpt-4o", accumulatedTokens := ["a"],
    currentTokenIndex := 1, startedAt := 0 }

def taskC9 : StreamingTask :=
  { taskId := "task-9", threadId := "th-9", userId := "u9", status := .failed,
    model := "gpt-4o", accumulatedTokens := ["Par", "tial"],
    currentTokenIndex := 2, startedAt := 0,
    error := some { message := "boom", code := "PROVIDER_ERROR", retryable := true } }

def rlZero : RateLimitsRec :=
  { creditsUsed := 0, searchCallsUsed := 0, researchCallsUsed := 0,
    fileUploadsUsed := 0 }

def usageC6 : Usage :=
  { promptTokens := 50, completionTokens := 50, totalTokens := 100 }

def worldC6 : GenWorld :=
  { message :=
      { threadId := "th-6", userId := "u6", role := .assistant, content := "",
        isStreaming := true, streamingTaskId := some "task-6",
        createdAt := 0, updatedAt := 0 }
    thread :=
      { threadId := "th-6", userId := "u6", generationStatus := .generating,
        activeTaskId := some "task-6", totalTokensUsed := 0, messageCount := 1,
        lastMessageAt := 0, updatedAt := 0 }
    task? := none
    rateLimits := rlZero }

def taskC7 : StreamingTask :=
  { taskId := "task-7", threadId := "th-7", userId := "u7", status := .streaming,
    model := "gpt-4o", accumulatedTokens := ["Par", "tial"],
    currentTokenIndex := 2, startedAt := 0 }

def worldC7 : GenWorld :=
  { message :=
      { threadId := "th-7", userId := "u7", role := .assistant,
        content := "Partial", isStreaming := true,
        streamingTaskId := some "task-7", createdAt := 0, updatedAt := 1 }
    thread :=
      { threadId := "th-7", userId := "u7", generationStatus := .generating,
        activeTaskId := some "task-7", totalTokensUsed := 0, messageCount := 1,
        lastMessageAt := 0, updatedAt := 0 }
    task? := some taskC7
    rateLimits := rlZero }

def threadC3 : ThreadRec :=
  { threadId := "th-3", userId := "u3", generationStatus := .idle,
    totalTokensUsed := 0, messageCount := 1, lastMessageAt := 0, updatedAt := 0 }

def worldC3 : ChatWorld :=
  { thread? := some threadC3, messages := [], tasks := [], rateLimits := rlZero }

def reqC3 : ChatRequest :=
  { messages := [{ role := .user, content := "hi" }], model := "gpt-4o" }

def rlDeniedC3 : RateLimitResult :=
  { allowed := false, reason := some "Credit limit exceeded",
    upgradeRequired := some true }

/-- The world after one run of the completion path on worldC6 at time 10:
message finalized, thread completed with the 100 tokens counted once, and 7
credits (the gpt-4o cost of 100 tokens with the web search tool) on the
ledger. -/
def worldC6once : GenWorld :=
  { message :=
      { worldC6.message with
        content := "Hello"
        streamingContent := none
        isStreaming := false
        finishReason := some .stop
        usage := some usageC6
        updatedAt := 10 }
    thread :=
      { worldC6.thread with
        generationStatus := .completed
        activeTaskId := none
        totalTokensUsed := 100
        updatedAt := 10 }
    task? := none
    rateLimits := { rlZero with creditsUsed := 7 } }

/-- The world after a second run of the completion path at time 20: the
message and the thread token total are unchanged apart from updatedAt, but
the ledger holds 14 credits. -/
def worldC6twice : GenWorld :=
  { message := { worldC6once.message with updatedAt := 20 }
    thread := { worldC6once.thread with updatedAt := 20 }
    task? := none
    rateLimits := { rlZero with creditsUsed := 14 } }

def envC10 : CheckEnv :=
  { getUserTier := .error (.other "database unavailable")
    getCurrentUsage1 := .ok none
    initializeUserRateLimits := .ok ()
    getCurrentUsage2 := .ok none
    resetRateLimits := .ok ()
    getCurrentUsage3 := .ok none
    now := 0 }

/-! ## Theorems -/

theorem cursorInvariant_applyTaskOp (t : StreamingTask) (op : TaskOp)
    (h : cursorInvariant t) : cursorInvariant (applyTaskOp t op) := by
  cases op with
  | append tok now =>
    simp [applyTaskOp, streamingTasks.appendToken, cursorInvariant]
  | setStatus s e now =>
    simpa [applyTaskOp, streamingTasks.updateStatus, cursorInvariant] using h

theorem cursorInvariant_applyTaskOps (t : StreamingTask) (ops : List TaskOp)
    (h : cursorInvariant t) : cursorInvariant (applyTaskOps t ops) := by
  induction ops generalizing t with
  | nil => exact h
  | cons op rest ih =>
    exact ih (applyTaskOp t op) (cursorInvariant_applyTaskOp t op h)

theorem cursorInvariant_create (identity : Option String) (user : Option UserRec)
    (thread : Option ThreadRec) (args : CreateTaskArgs) (now : Nat)
    (t0 : StreamingTask)
    (h : streamingTasks.create identity user thread args now = .ok t0) :
    cursorInvariant t0 := by
  cases identity with
  | none => simp [streamingTasks.create] at h
  | some i =>
    cases user with
    | none => simp [streamingTasks.create] at h
    | some u =>
      cases thread with
      | none => simp [streamingTasks.create] at h
      | some th =>
        by_cases hx : th.userId = u.authUserId
        · simp [streamingTasks.create, hx] at h
          subst h
          rfl
        · simp [streamingTasks.create, hx] at h

/-- Claim C5: after every operation on a streaming task — creation and then
any sequence of appendToken and updateStatus mutations — currentTokenIndex
equals the length of accumulatedTokens. -/
theorem C5_cursor_equals_length (identity : Option String)
    (user : Option UserRec) (thread : Option ThreadRec) (args : CreateTaskArgs)
    (now : Nat) (t0 : StreamingTask) (ops : List TaskOp)
    (h : streamingTasks.create identity user thread args now = .ok t0) :
    cursorInvariant (applyTaskOps t0 ops) :=
  cursorInvariant_applyTaskOps t0 ops
    (cursorInvariant_create identity user thread args now t0 h)

/-- Witness for C5 at a concrete creation and operation sequence. -/
theorem C5_cursor_equals_length_witness :
    cursorInvariant (applyTaskOps taskC5
      [TaskOp.append "Hel" 4, TaskOp.setStatus .streaming none 5,
        TaskOp.append "lo" 6]) :=
  C5_cursor_equals_length (some "auth-u5") (some { authUserId := "u5" })
    (some threadC5) argsC5 3 taskC5
    [TaskOp.append "Hel" 4, TaskOp.setStatus .streaming none 5,
      TaskOp.append "lo" 6] (by rfl)

/-- Counterexample to claim C4 as stated: appendToken on a task whose status
is completed still appends, so the fragment list changes. -/
theorem C4_counterexample :
    taskC4.status = .completed ∧
    (streamingTasks.appendToken taskC4 "extra" 9).accumulatedTokens ≠
      taskC4.accumulatedTokens := by
  constructor
  · rfl
  · decide

/-- Claim C4 amended: updateStatus never changes accumulatedTokens, so a
terminal status transition freezes nothing retroactively; appendToken,
however, appends its token unconditionally — also when the task status is
completed or failed — so the freeze is not enforced by the mutations
themselves. -/
theorem C4_freeze_not_enforced (t : StreamingTask) (s : TaskStatus)
    (e : Option TaskError) (tok : String) (now now2 : Nat) :
    (streamingTasks.updateStatus t s e now).accumulatedTokens =
        t.accumulatedTokens ∧
      (streamingTasks.appendToken t tok now2).accumulatedTokens =
        t.accumulatedTokens ++ [tok] :=
  ⟨rfl, rfl⟩

theorem resumeGET_live (u : SessionUser) (tid : String) (t : StreamingTask)
    (fuel now : Nat) (hown : t.userId = u.id) (hc : t.status ≠ .completed)
    (hf : t.status ≠ .failed) :
    resumeGET (some u) (some tid) (some t) fuel now =
      (.eventStream (sendTokens t t.currentTokenIndex fuel),
        some (streamingTasks.updateStatus t .streaming none now)) := by
  simp [resumeGET, hown, hc, hf]

theorem sendTokens_nil (t : StreamingTask) (i : Nat)
    (hdrop : t.accumulatedTokens.drop i = []) (hst : t.status ≠ .completed) :
    ∀ f, sendTokens t i f = [] := by
  intro f
  induction f with
  | zero => rfl
  | succ n ih =>
    rw [sendTokens]
    simp only [hdrop, List.map_nil, List.nil_append, if_neg hst]
    exact ih

/-- Claim C1, evaluated at the failing input: resuming a streaming task that
has accumulated the fragments Hel and lo emits no fragment at all, for any
number of polling iterations.  The stream starts at tokenIndex =
currentTokenIndex, which equals the fragment count, so the replay slice is
empty, and the loop re-reads the same stale snapshot forever. -/
theorem C1_resume_replays_nothing (fuel now : Nat) :
    (resumeGET (some { id := "u1" }) (some "task-1") (some taskC1) fuel
        now).1 = .eventStream [] := by
  rw [resumeGET_live { id := "u1" } "task-1" taskC1 fuel now rfl (by decide)
    (by decide)]
  rw [sendTokens_nil taskC1 taskC1.currentTokenIndex rfl (by decide) fuel]

/-- Counterexample to claim C2 as stated: for a completed task the route does
not answer with an event stream at all (so no fragment events and no terminal
finish event); it answers with a JSON body carrying the token array. -/
theorem C2_counterexample :
    (resumeGET (some { id := "u2" }) (some "task-2") (some taskC2) 5 0).1 =
        .alreadyCompleted ["Hel", "lo"] ∧
      (resumeGET (some { id := "u2" }) (some "task-2") (some taskC2) 5
          0).1.isEventStream = false := by
  constructor
  · rfl
  · rfl

/-- Claim C2 amended: for a completed task owned by the caller the Resume
Endpoint returns a plain JSON response carrying all accumulated fragments
from index 0 exactly once (no event stream and no terminal finish event),
leaves the task untouched, and a second call returns the same response —
the call is idempotent. -/
theorem C2_completed_json_idempotent (u : SessionUser) (tid : String)
    (t : StreamingTask) (fuel now fuel2 now2 : Nat) (hown : t.userId = u.id)
    (hc : t.status = .completed) :
    resumeGET (some u) (some tid) (some t) fuel now =
        (.alreadyCompleted t.accumulatedTokens, some t) ∧
      resumeGET (some u) (some tid)
          (resumeGET (some u) (some tid) (some t) fuel now).2 fuel2 now2 =
        (.alreadyCompleted t.accumulatedTokens, some t) := by
  have h1 : resumeGET (some u) (some tid) (some t) fuel now =
      (.alreadyCompleted t.accumulatedTokens, some t) := by
    simp [resumeGET, hown, hc]
  refine ⟨h1, ?_⟩
  rw [h1]
  simp [resumeGET, hown, hc]

/-- Witness for the amended C2 at a concrete completed task. -/
theorem C2_completed_json_idempotent_witness :
    resumeGET (some { id := "u2" }) (some "task-2") (some taskC2) 5 0 =
        (.alreadyCompleted taskC2.accumulatedTokens, some taskC2) ∧
      resumeGET (some { id := "u2" }) (some "task-2")
          (resumeGET (some { id := "u2" }) (some "task-2") (some taskC2) 5
            0).2 6 1 =
        (.alreadyCompleted taskC2.accumulatedTokens, some taskC2) :=
  C2_completed_json_idempotent { id := "u2" } "task-2" taskC2 5 0 6 1 rfl rfl

/-- Counterexample to claim C8 as stated: resuming a disconnected task
changes its status — the handler issues an updateStatus write setting it to
streaming. -/
theorem C8_counterexample :
    ((resumeGET (some { id := "u8" }) (some "task-8") (some taskC8) 1
          42).2.map StreamingTask.status) = some .streaming ∧
      taskC8.status = .disconnected := by
  constructor
  · rfl
  · rfl

/-- Claim C8 amended: the only write the Resume Endpoint performs on the
task is the status update to streaming (with its lastClientSeenAt
timestamp) on the non-terminal path; accumulatedTokens and currentTokenIndex
are unchanged by every resume invocation, so fragment appends remain the
producer side exclusively. -/
theorem C8_consumer_write_is_status_only (session : Option SessionUser)
    (tid : Option String) (task? : Option StreamingTask) (fuel now : Nat)
    (t' : StreamingTask)
    (h : (resumeGET session tid task? fuel now).2 = some t') :
    ∃ t, task? = some t ∧
      t'.accumulatedTokens = t.accumulatedTokens ∧
      t'.currentTokenIndex = t.currentTokenIndex ∧
      (t' = t ∨ t' = streamingTasks.updateStatus t .streaming none now) := by
  cases session with
  | none =>
    exact ⟨t', h, rfl, rfl, Or.inl rfl⟩
  | some user =>
    cases tid with
    | none =>
      exact ⟨t', h, rfl, rfl, Or.inl rfl⟩
    | some tidv =>
      cases task? with
      | none => simp [resumeGET] at h
      | some task =>
        refine ⟨task, rfl, ?_⟩
        by_cases hown : task.userId = user.id
        · by_cases hc : task.status = .completed
          · simp [resumeGET, hown, hc] at h
            subst h
            exact ⟨rfl, rfl, Or.inl rfl⟩
          · by_cases hf : task.status = .failed
            · simp [resumeGET, hown, hc, hf] at h
              subst h
              exact ⟨rfl, rfl, Or.inl rfl⟩
            · simp [resumeGET, hown, hc, hf] at h
              subst h
              exact ⟨rfl, rfl, Or.inr rfl⟩
        · simp [resumeGET, hown] at h
          subst h
          exact ⟨rfl, rfl, Or.inl rfl⟩

/-- Witness for the amended C8 at a concrete disconnected task. -/
theorem C8_consumer_write_is_status_only_witness :
    ∃ t, some taskC8 = some t ∧
      (streamingTasks.updateStatus taskC8 .streaming none
          42).accumulatedTokens = t.accumulatedTokens ∧
      (streamingTasks.updateStatus taskC8 .streaming none
          42).currentTokenIndex = t.currentTokenIndex ∧
      (streamingTasks.updateStatus taskC8 .streaming none 42 = t ∨
        streamingTasks.updateStatus taskC8 .streaming none 42 =
          streamingTasks.updateStatus t .streaming none 42) :=
  C8_consumer_write_is_status_only (some { id := "u8" }) (some "task-8")
    (some taskC8) 1 42 (streamingTasks.updateStatus taskC8 .streaming none 42)
    (by rfl)

/-- Counterexample to claim C9 as stated: a resume request on an owned task
whose status is failed is answered with 400, not with a 200 event stream. -/
theorem C9_counterexample :
    taskC9.userId = "u9" ∧
      (resumeGET (some { id := "u9" }) (some "task-9") (some taskC9) 1 0).1 =
        .streamFailed ∧
      (resumeGET (some { id := "u9" }) (some "task-9") (some taskC9) 1
          0).1.statusCode = 400 := by
  refine ⟨rfl, rfl, rfl⟩

/-- Claim C9 amended: with a session present and a taskId supplied, the
Resume Endpoint answers 404 when the task lookup misses and 403 when the
task is not owned by the caller; for owned tasks it answers 200 with a JSON
body (not an event stream) when the task is completed, 400 when it is
failed, and 200 with an event stream only when the task is non-terminal. -/
theorem C9_resume_responses (u : SessionUser) (tid : String)
    (task? : Option StreamingTask) (fuel now : Nat) :
    (task? = none →
        (resumeGET (some u) (some tid) task? fuel now).1 = .taskNotFound ∧
        (resumeGET (some u) (some tid) task? fuel now).1.statusCode = 404) ∧
      (∀ t, task? = some t → t.userId ≠ u.id →
        (resumeGET (some u) (some tid) task? fuel now).1 = .forbidden ∧
        (resumeGET (some u) (some tid) task? fuel now).1.statusCode = 403) ∧
      (∀ t, task? = some t → t.userId = u.id → t.status = .completed →
        (resumeGET (some u) (some tid) task? fuel now).1 =
          .alreadyCompleted t.accumulatedTokens ∧
        (resumeGET (some u) (some tid) task? fuel now).1.statusCode = 200 ∧
        (resumeGET (some u) (some tid) task? fuel now).1.isEventStream =
          false) ∧
      (∀ t, task? = some t → t.userId = u.id → t.status = .failed →
        (resumeGET (some u) (some tid) task? fuel now).1 = .streamFailed ∧
        (resumeGET (some u) (some tid) task? fuel now).1.statusCode = 400) ∧
      (∀ t, task? = some t → t.userId = u.id → t.status ≠ .completed →
        t.status ≠ .failed →
        (resumeGET (some u) (some tid) task? fuel now).1 =
          .eventStream (sendTokens t t.currentTokenIndex fuel) ∧
        (resumeGET (some u) (some tid) task? fuel now).1.statusCode = 200) := by
  refine ⟨?_, ?_, ?_, ?_, ?_⟩
  · intro hn
    subst hn
    exact ⟨rfl, rfl⟩
  · intro t ht hown
    subst ht
    have hr : (resumeGET (some u) (some tid) (some t) fuel now).1 =
        .forbidden := by
      simp [resumeGET, hown]
    exact ⟨hr, by rw [hr]; rfl⟩
  · intro t ht hown hc
    subst ht
    have hr : (resumeGET (some u) (some tid) (some t) fuel now).1 =
        .alreadyCompleted t.accumulatedTokens := by
      simp [resumeGET, hown, hc]
    exact ⟨hr, by rw [hr]; rfl, by rw [hr]; rfl⟩
  · intro t ht hown hf
    subst ht
    have hr : (resumeGET (some u) (some tid) (some t) fuel now).1 =
        .streamFailed := by
      simp [resumeGET, hown, hf]
    exact ⟨hr, by rw [hr]; rfl⟩
  · intro t ht hown hc hf
    subst ht
    have hr : (resumeGET (some u) (some tid) (some t) fuel now).1 =
        .eventStream (sendTokens t t.currentTokenIndex fuel) := by
      simp [resumeGET, hown, hc, hf]
    exact ⟨hr, by rw [hr]; rfl⟩

/-- Witness for the amended C9 at the lookup-miss input. -/
theorem C9_resume_responses_witness :
    (resumeGET (some { id := "u9w" }) (some "task-9w") none 1 0).1 =
        .taskNotFound ∧
      (resumeGET (some { id := "u9w" }) (some "task-9w") none 1
          0).1.statusCode = 404 :=
  (C9_resume_responses { id := "u9w" } "task-9w" none 1 0).1 rfl

/-- Claim C10: checkRateLimit fails closed — whenever the try block ends in
an exception that is not a RateLimitError, the function returns a result with
allowed false instead of permitting the action. -/
theorem C10_fails_closed (env : CheckEnv) (action : RateLimitAction)
    (metadata : Option RateLimitMetadata) (e : JsError)
    (h : checkRateLimitBody env action metadata = .error e)
    (hne : e.isRateLimitError = false) :
    checkRateLimit env action metadata =
        .ok { allowed := false,
              reason := some "Rate limit service unavailable" } ∧
      (checkRateLimit env action metadata).map RateLimitResult.allowed =
        .ok false := by
  have h1 : checkRateLimit env action metadata =
      .ok { allowed := false,
            reason := some "Rate limit service unavailable" } := by
    simp [checkRateLimit, h, hne]
  exact ⟨h1, by rw [h1]; rfl⟩

/-- Witness for C10 at an environment whose tier lookup throws an ordinary
database error. -/
theorem C10_fails_closed_witness :
    checkRateLimit envC10 .message none =
        .ok { allowed := false,
              reason := some "Rate limit service unavailable" } ∧
      (checkRateLimit envC10 .message none).map RateLimitResult.allowed =
        .ok false :=
  C10_fails_closed envC10 .message none (.other "database unavailable")
    (by rfl) (by rfl)

/-- Claim C3: when the handler has a session, a valid body and an existing
thread, and the rate limit gate answers allowed false, the POST returns 429
and leaves every record untouched: no streaming task, no message, no thread
change. -/
theorem C3_rate_limit_blocks_mutations (session : Option SessionUser)
    (body : Option ChatRequest) (user : Option UserRec) (w : ChatWorld)
    (rl : RateLimitResult) (genId : String) (now : Nat) (u : SessionUser)
    (req : ChatRequest) (th : ThreadRec) (hs : session = some u)
    (hb : body = some req) (ht : w.thread? = some th)
    (hrl : rl.allowed = false) :
    chatPOST session body user w rl genId now =
        (.rateLimited rl.reason rl.upgradeRequired, w) ∧
      (chatPOST session body user w rl genId now).1.statusCode = 429 ∧
      (chatPOST session body user w rl genId now).2.tasks = w.tasks ∧
      (chatPOST session body user w rl genId now).2.messages = w.messages ∧
      (chatPOST session body user w rl genId now).2.thread? = w.thread? := by
  subst hs hb
  have h1 : chatPOST (some u) (some req) user w rl genId now =
      (.rateLimited rl.reason rl.upgradeRequired, w) := by
    simp [chatPOST, ht, hrl]
  exact ⟨h1, by rw [h1]; rfl, by rw [h1], by rw [h1], by rw [h1]⟩

/-- Witness for C3 at a concrete denied request. -/
theorem C3_rate_limit_blocks_mutations_witness :
    chatPOST (some { id := "u3" }) (some reqC3) (some { authUserId := "u3" })
        worldC3 rlDeniedC3 "gen-3" 0 =
        (.rateLimited rlDeniedC3.reason rlDeniedC3.upgradeRequired, worldC3) ∧
      (chatPOST (some { id := "u3" }) (some reqC3) (some { authUserId := "u3" })
          worldC3 rlDeniedC3 "gen-3" 0).1.statusCode = 429 ∧
      (chatPOST (some { id := "u3" }) (some reqC3) (some { authUserId := "u3" })
          worldC3 rlDeniedC3 "gen-3" 0).2.tasks = worldC3.tasks ∧
      (chatPOST (some { id := "u3" }) (some reqC3) (some { authUserId := "u3" })
          worldC3 rlDeniedC3 "gen-3" 0).2.messages = worldC3.messages ∧
      (chatPOST (some { id := "u3" }) (some reqC3) (some { authUserId := "u3" })
          worldC3 rlDeniedC3 "gen-3" 0).2.thread? = worldC3.thread? :=
  C3_rate_limit_blocks_mutations (some { id := "u3" }) (some reqC3)
    (some { authUserId := "u3" }) worldC3 rlDeniedC3 "gen-3" 0 { id := "u3" }
    reqC3 threadC3 rfl rfl rfl rfl

/-- Claim C7, evaluated at the failing input: after a provider error
mid-generation over partial fragments Par and tial, the onError callback only
marks the thread failed; the streaming task keeps status streaming with no
error recorded, and the message keeps isStreaming true. -/
theorem C7_onError_leaves_task_and_message :
    onErrorPath "u7" worldC7 30 =
        .ok { worldC7 with
          thread := { worldC7.thread with
            generationStatus := .failed
            activeTaskId := none
            updatedAt := 30 } } ∧
      ((onErrorPath "u7" worldC7 30).map fun s => s.task?) =
        .ok (some taskC7) ∧
      ((onErrorPath "u7" worldC7 30).map fun s =>
        s.task?.map StreamingTask.status) = .ok (some .streaming) ∧
      ((onErrorPath "u7" worldC7 30).map fun s =>
        s.task?.map StreamingTask.error) = .ok (some none) ∧
      ((onErrorPath "u7" worldC7 30).map fun s => s.message.isStreaming) =
        .ok true ∧
      ((onErrorPath "u7" worldC7 30).map fun s => s.thread.generationStatus) =
        .ok .failed := by
  refine ⟨rfl, rfl, rfl, rfl, rfl, rfl⟩

theorem onFinishPath_eq (userId text : String) (fr : FinishReason)
    (usage : Usage) (model : String) (s : GenWorld) (now : Nat)
    (h : s.thread.userId = userId) :
    onFinishPath userId text fr usage model s now =
      .ok
        { message :=
            { s.message with
              content := text
              streamingContent := none
              isStreaming := false
              finishReason := some fr
              usage := some usage
              updatedAt := now }
          thread :=
            { s.thread with
              generationStatus := .completed
              activeTaskId := none
              totalTokensUsed := s.thread.totalTokensUsed +
                (if s.thread.generationStatus = .generating then
                  usage.totalTokens else 0)
              updatedAt := now }
          task? := s.task?
          rateLimits := incrementUsage s.rateLimits .message
            (calculateCreditCost model (usage.totalTokens : Rat)
              ["web_search_preview"]) } := by
  by_cases hg : s.thread.generationStatus = .generating
  · simp [onFinishPath, messages.updateStreaming, threads.updateStatus, h, hg]
  · simp [onFinishPath, messages.updateStreaming, threads.updateStatus, h, hg]

theorem creditCost_gpt4o_websearch :
    calculateCreditCost "gpt-4o" (usageC6.totalTokens : Rat)
      ["web_search_preview"] = 7 := by
  norm_num +decide [calculateCreditCost, MODEL_CREDIT_COSTS,
    TOOL_CREDIT_COSTS, usageC6]

/-- Counterexample to claim C6 as stated: running the completion path twice
for the same task doubles the credit usage recorded in the rate-limit
ledger — after one invocation creditsUsed is 7, after two it is 14. -/
theorem C6_counterexample :
    onFinishPath "u6" "Hello" .stop usageC6 "gpt-4o" worldC6 10 =
        .ok worldC6once ∧
      onFinishPath "u6" "Hello" .stop usageC6 "gpt-4o" worldC6once 20 =
        .ok worldC6twice ∧
      worldC6once.rateLimits.creditsUsed = 7 ∧
      worldC6twice.rateLimits.creditsUsed = 14 ∧
      worldC6twice.rateLimits.creditsUsed ≠
        worldC6once.rateLimits.creditsUsed := by
  refine ⟨?_, ?_, rfl, rfl, by decide⟩
  · rw [onFinishPath_eq "u6" "Hello" .stop usageC6 "gpt-4o" worldC6 10 rfl,
      creditCost_gpt4o_websearch]
    exact congrArg Except.ok (by decide)
  · rw [onFinishPath_eq "u6" "Hello" .stop usageC6 "gpt-4o" worldC6once 20 rfl,
      creditCost_gpt4o_websearch]
    exact congrArg Except.ok (by decide)

theorem onFinishPath_fields (userId text : String) (fr : FinishReason)
    (usage : Usage) (model : String) (s : GenWorld) (now : Nat)
    (s' : GenWorld)
    (h : onFinishPath userId text fr usage model s now = .ok s') :
    s'.message.content = text ∧
      s'.message.isStreaming = false ∧
      s'.message.finishReason = some fr ∧
      s'.message.usage = some usage ∧
      s'.thread.generationStatus = .completed ∧
      s'.thread.userId = s.thread.userId ∧
      s'.thread.totalTokensUsed = s.thread.totalTokensUsed +
        (if s.thread.generationStatus = .generating then usage.totalTokens
          else 0) ∧
      s'.rateLimits.creditsUsed = s.rateLimits.creditsUsed +
        calculateCreditCost model (usage.totalTokens : Rat)
          ["web_search_preview"] := by
  have hu : s.thread.userId = userId := by
    by_contra hne
    simp [onFinishPath, messages.updateStreaming, hne] at h
  rw [onFinishPath_eq userId text fr usage model s now hu] at h
  injection h with h'
  subst h'
  exact ⟨rfl, rfl, rfl, rfl, rfl, rfl, rfl, by simp [incrementUsage]⟩

/-- Claim C6 amended: invoking the completion path twice for the same task
leaves the Message record in the same final state (content, isStreaming,
finishReason, usage) and does not double-count the thread token total, but
the second invocation adds the measured credit cost to the user ledger
again. -/
theorem C6_second_invocation_double_counts_ledger (userId text : String)
    (fr : FinishReason) (usage : Usage) (model : String) (s0 : GenWorld)
    (now1 now2 : Nat) (s1 s2 : GenWorld)
    (h1 : onFinishPath userId text fr usage model s0 now1 = .ok s1)
    (h2 : onFinishPath userId text fr usage model s1 now2 = .ok s2) :
    s2.message.content = s1.message.content ∧
      s2.message.isStreaming = s1.message.isStreaming ∧
      s2.message.finishReason = s1.message.finishReason ∧
      s2.message.usage = s1.message.usage ∧
      s2.thread.generationStatus = s1.thread.generationStatus ∧
      s2.thread.totalTokensUsed = s1.thread.totalTokensUsed ∧
      s2.rateLimits.creditsUsed = s1.rateLimits.creditsUsed +
        calculateCreditCost model (usage.totalTokens : Rat)
          ["web_search_preview"] := by
  obtain ⟨c1, i1, f1, u1, g1, _, _, _⟩ :=
    onFinishPath_fields userId text fr usage model s0 now1 s1 h1
  obtain ⟨c2, i2, f2, u2, g2, _, t2, r2⟩ :=
    onFinishPath_fields userId text fr usage model s1 now2 s2 h2
  refine ⟨?_, ?_, ?_, ?_, ?_, ?_, r2⟩
  · rw [c1, c2]
  · rw [i1, i2]
  · rw [f1, f2]
  · rw [u1, u2]
  · rw [g1, g2]
  · rw [t2, g1]
    simp

/-- Witness for the amended C6 at a concrete double reconciliation. -/
theorem C6_second_invocation_double_counts_ledger_witness :
    worldC6twice.message.content = worldC6once.message.content ∧
      worldC6twice.message.isStreaming = worldC6once.message.isStreaming ∧
      worldC6twice.message.finishReason = worldC6once.message.finishReason ∧
      worldC6twice.message.usage = worldC6once.message.usage ∧
      worldC6twice.thread.generationStatus =
        worldC6once.thread.generationStatus ∧
      worldC6twice.thread.totalTokensUsed =
        worldC6once.thread.totalTokensUsed ∧
      worldC6twice.rateLimits.creditsUsed =
        worldC6once.rateLimits.creditsUsed +
          calculateCreditCost "gpt-4o" (usageC6.totalTokens : Rat)
            ["web_search_preview"] :=
  C6_second_invocation_double_counts_ledger "u6" "Hello" .stop usageC6
    "gpt-4o" worldC6 10 20 worldC6once worldC6twice
    (by
      rw [onFinishPath_eq "u6" "Hello" .stop usageC6 "gpt-4o" worldC6 10 rfl,
        creditCost_gpt4o_websearch]
      exact congrArg Except.ok (by decide))
    (by
      rw [onFinishPath_eq "u6" "Hello" .stop usageC6 "gpt-4o" worldC6once 20
        rfl, creditCost_gpt4o_websearch]
      exact congrArg Except.ok (by decide))

end T3
